import Mathlib

/-!
Shallow embedding of the response orchestration core of
`src/src/services/speaker/base.ts` (class `BaseSpeaker`), together with
theorems settling the frozen claims about it.

Modelling conventions:
  * JavaScript strings are Lean `String`; a possibly-`undefined` string is
    `Option String`; JS truthiness of a string is "present and nonempty"
    (`strTruthy`).
  * Machine effects (MiNA / MiIOT device calls) are recorded in a trace
    inside an explicit state `St`; the external world (environment
    variables, device poll answers, the caller's interruption callback,
    concurrent clearing of the `responding` flag, rejected promises) is an
    oracle `Env`.
  * A possibly-rejecting async call is a `RunOut`: normal return, thrown
    error (promise rejection), or fuel exhaustion of an unbounded poll
    loop (the source loops carry no iteration cap).
  * `StreamResponse` lives in `stream.ts`, which is not part of the given
    sources; it is modelled from the spec where marked.
-/

/-- JS truthiness for an optional string: defined and nonempty. -/
def strTruthy : Option String → Bool
  | none => false
  | some s => s != ""

/-- Rendering of a possibly-undefined string inside a JS template literal:
`undefined` is interpolated as the text "undefined". -/
def jsStr : Option String → String
  | none => "undefined"
  | some s => s

/-- Characters matched by the JS regex class `\s` (ASCII part). -/
def isWs (c : Char) : Bool :=
  c.isWhitespace || c = '\x0b' || c = '\x0c'

/-- Scanner mode for the global replace of `\n\s*\n` by a newline:
`normal` outside any candidate match; `run buf` right after an emitted
newline (the opening of a candidate match, or the single newline a
completed match was replaced by), where `buf` holds, reversed, the
non-newline whitespace seen since the most recent newline.  A further
newline extends the greedy match and consumes the buffer; a non-whitespace
character flushes the buffer.  Whether a match actually completed does not
change the emitted text, because the replacement is exactly the one
newline already emitted. -/
inductive ScanMode where
  | normal
  | run (buf : List Char)

/-- The effect of `text.replace(/\n\s*\n/g, "\n")`: each leftmost, greedy
match of "newline, whitespace, newline" collapses to a single newline,
and scanning resumes after the consumed match. -/
def collapseGo : List Char → ScanMode → List Char
  | [], .normal => []
  | [], .run buf => buf.reverse
  | c :: cs, .normal =>
    if c = '\n' then '\n' :: collapseGo cs (.run [])
    else c :: collapseGo cs .normal
  | c :: cs, .run buf =>
    if c = '\n' then collapseGo cs (.run [])
    else if isWs c then collapseGo cs (.run (c :: buf))
    else buf.reverse ++ c :: collapseGo cs .normal

/-- JS `String.prototype.trim`: strip whitespace from both ends. -/
def trimChars (l : List Char) : List Char :=
  ((l.dropWhile isWs).reverse.dropWhile isWs).reverse

/-- `text?.replace(/\n\s*\n/g, "\n")?.trim()` from `_response`. -/
def normalizeText (t : String) : String :=
  String.mk (trimChars (collapseGo t.data .normal))

/-- Characters left unescaped by `encodeURIComponent`. -/
def isUnreservedURI (c : Char) : Bool :=
  c.isAlpha || c.isDigit || c = '-' || c = '_' || c = '.' || c = '!' ||
    c = '~' || c = '*' || c = '(' || c = ')' || c = '\x27'

/-- Uppercase hex digit. -/
def hexDigitChar (n : Nat) : Char :=
  if n < 10 then Char.ofNat (48 + n) else Char.ofNat (55 + n)

/-- UTF-8 bytes of a character. -/
def utf8Bytes (c : Char) : List Nat :=
  let n := c.toNat
  if n < 0x80 then [n]
  else if n < 0x800 then
    [0xC0 ||| (n >>> 6), 0x80 ||| (n &&& 0x3F)]
  else if n < 0x10000 then
    [0xE0 ||| (n >>> 12), 0x80 ||| ((n >>> 6) &&& 0x3F), 0x80 ||| (n &&& 0x3F)]
  else
    [0xF0 ||| (n >>> 18), 0x80 ||| ((n >>> 12) &&& 0x3F),
      0x80 ||| ((n >>> 6) &&& 0x3F), 0x80 ||| (n &&& 0x3F)]

/-- Percent-escape of one byte. -/
def percentByte (b : Nat) : List Char :=
  ['%', hexDigitChar (b / 16), hexDigitChar (b % 16)]

/-- JS `encodeURIComponent`. -/
def encodeURIComponent (s : String) : String :=
  String.mk ((s.data.map fun c =>
    if isUnreservedURI c then [c]
    else ((utf8Bytes c).map percentByte).flatten).flatten)

/-- TTS provider: the device's own assistant TTS (`"xiaoai"`) or the vendor
backend (`"doubao"`). -/
inductive TTS where
  | xiaoai
  | doubao
deriving DecidableEq, Repr, BEq

/-- One voice-catalog entry (`Speaker` in the source). -/
structure Speaker where
  name : String
  gender : String
  speaker : String
deriving DecidableEq, Repr

/-- A device call as observed on the wire (trace event). -/
inductive DevCall where
  | play (url : Option String)
  | doAction (siid aiid : Nat) (arg : Option String)
  | pause
  | getStatus
  | getProperty (siid piid : Nat)
deriving DecidableEq, Repr

/-- Raw result of `MiNA.getStatus()`: optional fields of the status object
(`undefined` result is `none` at the outer option). -/
structure RawStatus where
  status : Option String
  media_type : Option String
deriving DecidableEq, Repr

/-- Mutable/ambient configuration of the `BaseSpeaker` instance. -/
structure SpeakerCfg where
  tts : TTS
  ttsCommand : Nat × Nat
  wakeUpCommand : Nat × Nat
  playingCommand : Option (Nat × Nat × Nat)
  checkInterval : Nat
  audioBeep : Option String
  defaultSpeaker : String

/-- External world: environment variables, promise rejections, and the
answers the device and the caller's callback give at each poll tick. -/
structure Env where
  doubaoTTS : Option String
  throwAt : Option Nat
  extClear : Nat → Bool
  propRes : Nat → Option Nat
  statusRes : Nat → Option RawStatus

/-- Interpreter state: the `responding` field, the trace of device calls,
the count of device calls issued (for selective promise rejection), the
global poll-tick counter, and a ghost list of dispatched stream chunks. -/
structure St where
  responding : Bool
  trace : List DevCall
  nCalls : Nat
  tick : Nat
  dispatched : List String
deriving DecidableEq, Repr

/-- Outcome of running an async fragment: normal value, thrown error
(rejected device promise), or poll-loop fuel exhaustion. -/
inductive RunOut (α : Type) where
  | ok (a : α) (s : St)
  | thrown (s : St)
  | fuelOut (s : St)

/-- The state carried by any outcome. -/
def RunOut.state : RunOut α → St
  | .ok _ s => s
  | .thrown s => s
  | .fuelOut s => s

/-- Whether the fragment exited by a thrown error. -/
def RunOut.isThrown : RunOut α → Bool
  | .thrown _ => true
  | _ => false

/-- The returned value, when the fragment returned normally. -/
def RunOut.val : RunOut α → Option α
  | .ok a _ => some a
  | _ => none

/-- On a normal return the `responding` flag is cleared; exceptional exits
are not constrained by this predicate. -/
def RunOut.respondingClearedIfOk : RunOut α → Bool
  | .ok _ s => !s.responding
  | _ => true

/-- Sequencing of async fragments (errors and fuel exhaustion propagate). -/
def RunOut.bind (x : RunOut α) (f : α → St → RunOut β) : RunOut β :=
  match x with
  | .ok a s => f a s
  | .thrown s => .thrown s
  | .fuelOut s => .fuelOut s

/-- Issue one device call: append it to the trace; the promise rejects when
the environment says this call (by index) fails. -/
def devCall (env : Env) (c : DevCall) (s : St) : RunOut Unit :=
  let s' : St := { s with trace := s.trace ++ [c], nCalls := s.nCalls + 1 }
  if env.throwAt = some s.nCalls then .thrown s' else .ok () s'

/-- Modelled from the spec: the special inert phrase of `unWakeUp`
(constant `kAreYouOK` of the missing `utils/string.ts`); its exact text is
immaterial here. -/
def kAreYouOK : String := "inert-phrase"

/-- `unWakeUp()`: pause current media, then speak the inert phrase over the
TTS action command. -/
def unWake (cfg : SpeakerCfg) (env : Env) (s : St) : RunOut Unit :=
  (devCall env .pause s).bind fun _ s =>
    devCall env (.doAction cfg.ttsCommand.1 cfg.ttsCommand.2 (some kAreYouOK)) s

/-- The derived transient playback state (`playing` object in the poll
loop). -/
structure Playing where
  status : String
  media_type : Option String
deriving DecidableEq, Repr

/-- Derivation of the playback state on one tick: via the configured
property command (tri-state compare against the configured marker, no
media type ever populated), or from `getStatus` merged over
`{status := "idle"}`. -/
def derivePlaying (pc : Option (Nat × Nat × Nat)) (propRes : Option Nat)
    (statusRes : Option RawStatus) : Playing :=
  match pc with
  | some c => if propRes = some c.2.2 then ⟨"playing", none⟩ else ⟨"idle", none⟩
  | none =>
    match statusRes with
    | none => ⟨"idle", none⟩
    | some r => ⟨r.status.getD "idle", r.media_type⟩

/-- Which of the three interruption disjuncts fired (first match wins, in
the short-circuit order of the source condition). -/
inductive IntrReason where
  | callerCheck
  | flagCleared
  | deviceSelfPlay
deriving DecidableEq, Repr

/-- Decision taken by one poll tick of the monitor. -/
inductive TickDecision where
  | interrupted (r : IntrReason)
  | completed
  | keepPolling
deriving DecidableEq, Repr

/-- One tick's decision:
`hasNewMsg() || !this.responding || (playing && media_type)` short-circuits
in that order into Interrupted; otherwise a non-playing status completes;
otherwise keep polling. -/
def monitorDecide (newMsg responding : Bool) (p : Playing) : TickDecision :=
  if newMsg then .interrupted .callerCheck
  else if !responding then .interrupted .flagCleared
  else if p.status == "playing" && strTruthy p.media_type then
    .interrupted .deviceSelfPlay
  else if !(p.status == "playing") then .completed
  else .keepPolling

/-- The device call issued by one poll tick. -/
def pollEv (cfg : SpeakerCfg) : DevCall :=
  match cfg.playingCommand with
  | some c => .getProperty c.1 c.2.1
  | none => .getStatus

/-- The `while (true)` playback-monitor loop inside `play`: poll, derive
the playback state, apply any concurrent clear of `responding`, decide.
Returns `some "break"` on interruption, `none` on natural completion. -/
def monitorLoop (cfg : SpeakerCfg) (env : Env) (f : Nat → Bool) :
    Nat → St → RunOut (Option String)
  | 0, s => .fuelOut s
  | fuel + 1, s =>
    (devCall env (pollEv cfg) s).bind fun _ s =>
      let p := derivePlaying cfg.playingCommand (env.propRes s.tick) (env.statusRes s.tick)
      let s := if env.extClear s.tick then { s with responding := false } else s
      match monitorDecide (f s.tick) s.responding p with
      | .interrupted _ => .ok (some "break") { s with tick := s.tick + 1 }
      | .completed => .ok none { s with tick := s.tick + 1 }
      | .keepPolling => monitorLoop cfg env f fuel { s with tick := s.tick + 1 }

/-- Argument object of the inner `play` helper: `{tts}` or `{url}`. -/
structure PlayArgs where
  tts : Option String := none
  url : Option String := none

/-- The inner `play` closure of `_response`: optional opening chime,
optional unwake, the actual playback call (TTS action or play-URL), the
monitor loop, then optional closing chime and optional re-wake. -/
def playCall (cfg : SpeakerCfg) (env : Env) (playSFX ttsNX keepAlive : Bool)
    (f : Nat → Bool) (args : PlayArgs) (fuel : Nat) (s : St) :
    RunOut (Option String) :=
  (if playSFX && strTruthy cfg.audioBeep then
      devCall env (.play cfg.audioBeep) s
    else .ok () s).bind fun _ s =>
  (if ttsNX then unWake cfg env s else .ok () s).bind fun _ s =>
  (if strTruthy args.tts then
      devCall env (.doAction cfg.ttsCommand.1 cfg.ttsCommand.2 args.tts) s
    else devCall env (.play args.url) s).bind fun _ s =>
  (monitorLoop cfg env f fuel s).bind fun r s =>
  match r with
  | some b => .ok (some b) s
  | none =>
    (if playSFX && strTruthy cfg.audioBeep then
        devCall env (.play cfg.audioBeep) s
      else .ok () s).bind fun _ s =>
    (if keepAlive then
        devCall env (.doAction cfg.wakeUpCommand.1 cfg.wakeUpCommand.2 none) s
      else .ok () s).bind fun _ s =>
    .ok none s

/-- Modelled from the spec: a `StreamCursor` (class `StreamResponse` of the
missing `stream.ts`) owns an ordered finite sequence of
"next chunk, no-more" answers plus a cancellation flag. -/
structure StreamResponse where
  sched : List (Option String × Bool)
  cancelled : Bool

/-- Modelled from the spec: `getNextResponse` produces the next
"chunk, no-more" pair; once cancelled (or exhausted) it yields no chunk
and reports no-more. -/
def getNextResponse (cur : StreamResponse) :
    (Option String × Bool) × StreamResponse :=
  if cur.cancelled then ((none, true), cur)
  else
    match cur.sched with
    | [] => ((none, true), cur)
    | r :: rest => (r, { cur with sched := rest })

/-- Modelled from the spec: `cancel()` raises the cancellation flag
(idempotent). -/
def StreamResponse.cancel (cur : StreamResponse) : StreamResponse :=
  { cur with cancelled := true }

/-- Sentence-boundary characters of the modelled segmenter. -/
def isSentenceEnd (c : Char) : Bool :=
  c = '.' || c = '!' || c = '?' || c = '。' || c = '！' || c = '？' || c = '\n'

/-- Split a character list at sentence boundaries (delimiters kept). -/
def splitChunksAux : List Char → List Char → List String
  | [], [] => []
  | [], acc => [String.mk acc.reverse]
  | c :: cs, acc =>
    if isSentenceEnd c then
      String.mk (c :: acc).reverse :: splitChunksAux cs []
    else splitChunksAux cs (c :: acc)

/-- Modelled from the spec: the sentence-like chunks of a text (blank
fragments are not sentences). -/
def sentenceChunks (t : String) : List String :=
  (splitChunksAux t.data []).filter fun s => String.mk (trimChars s.data) != ""

/-- Schedule in which the last real chunk carries the no-more marker. -/
def mkSched : List String → List (Option String × Bool)
  | [] => [(none, true)]
  | [c] => [(some c, true)]
  | c :: cs => (some c, false) :: mkSched cs

/-- Modelled from the spec: `StreamResponse.createStreamResponse` converts
a complete text into a finished, uncancelled cursor over its
sentence-like chunks. -/
def createStreamResponse (text : String) : StreamResponse :=
  { sched := mkSched (sentenceChunks text), cancelled := false }

/-- The caller-visible options object of `response` (optional members are
`Option`; the interruption callback is a function of the global poll
tick). -/
structure RespOptions where
  tts : Option TTS := none
  text : Option String := none
  stream : Option StreamResponse := none
  audio : Option String := none
  speaker : Option String := none
  keepAlive : Option Bool := none
  playSFX : Option Bool := none
  hasNewMsg : Option (Nat → Bool) := none

/-- The default interruption check written into the options object:
`this.checkIfHasNewMsg().hasNewMsg`, which always answers `false`. -/
def defaultHasNewMsg : Nat → Bool := fun _ => false

/-- The vendor TTS URL template of `_response`
(`TTS_DOUBAO` interpolated even when undefined). -/
def doubaoUrl (env : Env) (speaker text : String) : String :=
  jsStr env.doubaoTTS ++ "?speaker=" ++ speaker ++ "&text=" ++
    encodeURIComponent text

/-- The private `_response`: destructure options (note: `tts` is re-read
from the options object, not from the provider forced by `response`),
normalizeText the text, and play either the audio URL, the vendor TTS URL, or
the native TTS action; no payload plays nothing. -/
def respInner (cfg : SpeakerCfg) (env : Env) (opts : RespOptions)
    (fuel : Nat) (s : St) : RunOut (Option String) :=
  let playSFX0 := opts.playSFX.getD true
  let keepAlive := opts.keepAlive.getD false
  let tts := opts.tts.getD cfg.tts
  let speaker := opts.speaker.getD cfg.defaultSpeaker
  let f : Nat → Bool := fun n =>
    match opts.hasNewMsg with
    | some g => g n
    | none => false
  let ttsText := opts.text.map normalizeText
  let ttsNX := opts.stream.isNone && strTruthy opts.text &&
    !(strTruthy opts.audio) && (tts != TTS.xiaoai)
  let playSFX := ttsNX && playSFX0
  if strTruthy opts.audio then
    playCall cfg env playSFX ttsNX keepAlive f { url := opts.audio } fuel s
  else if strTruthy ttsText then
    match tts with
    | .doubao =>
      playCall cfg env playSFX ttsNX keepAlive f
        { url := some (doubaoUrl env speaker (ttsText.getD "")) } fuel s
    | .xiaoai =>
      playCall cfg env playSFX ttsNX keepAlive f { tts := ttsText } fuel s
  else .ok none s

/-- Lines 162-171 of the streaming loop: on the very first chunk
(`_response.length < 1`), play the opening chime (note: no check that the
chime URL is configured) and, for a non-native provider, unwake the
device. -/
def chunkPrelude (cfg : SpeakerCfg) (env : Env) (playSFX ttsNX : Bool)
    (acc : String) (s : St) : RunOut Unit :=
  if acc.length < 1 then
    (if playSFX then devCall env (.play cfg.audioBeep) s else .ok () s).bind
      fun _ s => (if ttsNX then unWake cfg env s else .ok () s)
  else .ok () s

/-- Lines 185-196 of the streaming loop: at no-more, play the closing chime
when anything was spoken, and re-wake the device when keep-alive was
requested. -/
def closingCalls (cfg : SpeakerCfg) (env : Env) (playSFX keepAlive : Bool)
    (acc : String) (s : St) : RunOut Unit :=
  (if acc.length > 0 then
      (if playSFX then devCall env (.play cfg.audioBeep) s else .ok () s)
    else .ok () s).bind fun _ s =>
  (if keepAlive then
      devCall env (.doAction cfg.wakeUpCommand.1 cfg.wakeUpCommand.2 none) s
    else .ok () s)

/-- The options object a stream chunk is dispatched with:
`{...options, text: nextSentence, playSFX: false, keepAlive: false}`. -/
def chunkOpts (opts : RespOptions) (t : String) : RespOptions :=
  { opts with text := some t, playSFX := some false, keepAlive := some false }

/-- Record a dispatched chunk in the ghost list. -/
def St.pushDispatched (s : St) (t : String) : St :=
  { s with dispatched := s.dispatched ++ [t] }

/-- The streaming loop of `response`: pull the next chunk; on the first
chunk play the opening chime and unwake; dispatch the chunk through
`_response` with chime and keep-alive disabled (the dispatched chunk is
also recorded in the ghost `dispatched` list); a "break" result cancels
the cursor and ends the session; at no-more run the closing calls.  The
accumulator `acc` is the `_response` string of the source, `res` the last
dispatch result. -/
def streamLoop (cfg : SpeakerCfg) (env : Env) (opts : RespOptions)
    (playSFX ttsNX keepAlive : Bool) (mfuel : Nat) :
    Nat → StreamResponse → String → Option String → St →
      RunOut (Option String × StreamResponse)
  | 0, _, _, _, s => .fuelOut s
  | fuel + 1, cur0, acc, res, s =>
    let nr := getNextResponse cur0
    let ns := nr.1.1
    let noMore := nr.1.2
    let cur := nr.2
    if strTruthy ns then
      (chunkPrelude cfg env playSFX ttsNX acc s).bind fun _ s =>
      let t := ns.getD ""
      (respInner cfg env (chunkOpts opts t) mfuel (s.pushDispatched t)).bind
        fun r s =>
      if r = some "break" then .ok (some "break", cur.cancel) s
      else
        if noMore then
          (closingCalls cfg env playSFX keepAlive (acc ++ t) s).bind fun _ s =>
            .ok (r, cur) s
        else streamLoop cfg env opts playSFX ttsNX keepAlive mfuel fuel cur (acc ++ t) r s
    else
      if noMore then
        (closingCalls cfg env playSFX keepAlive acc s).bind fun _ s => .ok (res, cur) s
      else streamLoop cfg env opts playSFX ttsNX keepAlive mfuel fuel cur acc res s

/-- Result of one `response` invocation: the async outcome plus the options
object as the caller sees it afterwards (the source mutates the caller's
object in place; the model returns the mutated record). -/
structure ResponseOut where
  result : RunOut (Option String)
  optsOut : RespOptions

/-- The public `response`: write the default interruption check into the
options object when absent; force the provider to the native TTS when the
vendor endpoint variable is not configured (note: only into a local, not
into the options object); decide chime eligibility; synthesize a stream
from vendor text; set `responding`, run the streaming loop or a single
`_response`, clear `responding` on normal return. -/
def response (cfg : SpeakerCfg) (env : Env) (opts0 : RespOptions)
    (fuel : Nat) : ResponseOut :=
  let opts := if opts0.hasNewMsg.isNone then
      { opts0 with hasNewMsg := some defaultHasNewMsg }
    else opts0
  let playSFX0 := opts.playSFX.getD true
  let keepAlive := opts.keepAlive.getD false
  let ttsEff := if strTruthy env.doubaoTTS then opts.tts.getD cfg.tts else TTS.xiaoai
  let ttsNX := (opts.stream.isSome || strTruthy opts.text) &&
    !(strTruthy opts.audio) && (ttsEff != TTS.xiaoai)
  let playSFX := ttsNX && playSFX0
  let stream := if ttsNX && opts.stream.isNone then
      some (createStreamResponse (opts.text.getD ""))
    else opts.stream
  let s0 : St := { responding := true, trace := [], nCalls := 0, tick := 0,
                   dispatched := [] }
  let body : RunOut (Option String) :=
    match stream with
    | some cur =>
      (streamLoop cfg env opts playSFX ttsNX keepAlive fuel fuel cur "" none s0).bind
        fun r s => .ok r.1 s
    | none => respInner cfg env opts fuel s0
  { result :=
      match body with
      | .ok r s => .ok r { s with responding := false }
      | .thrown s => .thrown s
      | .fuelOut s => .fuelOut s,
    optsOut := opts }

/-- Result of `(await fetch(speakersAPI)).json()`: an array (of catalog
entries) or some non-array JSON value. -/
inductive FetchVal where
  | arr (l : List Speaker)
  | notArr
deriving Repr

/-- External world of `switchDefaultSpeaker`: the catalog endpoint variable
and the outcome of the fetch (a rejected promise is `Except.error`). -/
structure SwitchEnv where
  speakersAPI : Option String
  fetchResult : Except Unit FetchVal

/-- `switchDefaultSpeaker(speaker)`: lazily fetch the catalog once when the
cache is empty and an endpoint is configured (a rejected fetch propagates —
there is no try/catch); with no catalog return `false`; otherwise find an
entry matching on display name or provider id; on a match install its
provider id as the default and return `true`, else leave the default and
return `false`.  Returns (result, new cache, new default voice id). -/
def switchDefaultSpeaker (env : SwitchEnv) (cache : Option (List Speaker))
    (dflt arg : String) : Except Unit (Bool × Option (List Speaker) × String) :=
  let fetched : Except Unit (Option (List Speaker)) :=
    if cache.isNone && strTruthy env.speakersAPI then
      match env.fetchResult with
      | .error e => .error e
      | .ok (.arr l) => .ok (some l)
      | .ok .notArr => .ok cache
    else .ok cache
  match fetched with
  | .error e => .error e
  | .ok cacheNow =>
    match cacheNow with
    | none => .ok (false, none, dflt)
    | some l =>
      match l.find? (fun e => e.name == arg || e.speaker == arg) with
      | some t => .ok (true, some l, t.speaker)
      | none => .ok (false, some l, dflt)

/-- All chunks a cursor can still yield, in order (a cancelled cursor
yields nothing; empty-string answers are not chunks). -/
def potentialChunks (cur : StreamResponse) : List String :=
  if cur.cancelled then []
  else
    cur.sched.filterMap fun p =>
      match p.1 with
      | some t => if t = "" then none else some t
      | none => none

/-! ## Theorems settling the claims -/

/-- C10: `response` mutates its caller-supplied options object.  Whenever
the caller omits the interruption-check member, `response` writes the
default interruption check (`checkIfHasNewMsg().hasNewMsg`, i.e. the
constant-false check) into that same object, and the assignment remains
visible after the call returns (`optsOut` is the caller's object after the
call); every other member of the options object is left unchanged, which
the full-record equality expresses. -/
theorem response_mutates_only_hasNewMsg (cfg : SpeakerCfg) (env : Env)
    (opts : RespOptions) (fuel : Nat) :
    (response cfg env opts fuel).optsOut =
      if opts.hasNewMsg.isNone then
        { opts with hasNewMsg := some defaultHasNewMsg }
      else opts := rfl

/-- C6: with a loaded catalog, `switchDefaultSpeaker` matches its argument
exactly against display name or provider voice id; a match installs that
entry's provider id as the default and returns true, no match leaves the
default unchanged and returns false (and the fetch environment is never
consulted). -/
theorem switch_loaded_catalog (env : SwitchEnv) (l : List Speaker)
    (dflt arg : String) :
    switchDefaultSpeaker env (some l) dflt arg =
      match l.find? (fun e => e.name == arg || e.speaker == arg) with
      | some t => .ok (true, some l, t.speaker)
      | none => .ok (false, some l, dflt) := rfl

/-- C5 counterexample: the claim says a failed catalog fetch is recovered
locally as a boolean `false`; in the code the rejected fetch promise
propagates out of `switchDefaultSpeaker` (there is no try/catch), so with
a configured endpoint and a rejecting fetch the call throws instead of
returning false. -/
theorem switch_fetch_rejects_cex :
    switchDefaultSpeaker ⟨some "https://catalog", .error ()⟩ none
      "zh_female_maomao_conversation_wvae_bigtts" "Maomao" = .error () := rfl

/-- C5 amended: if the catalog endpoint is not configured, or the fetched
result is not a well-formed list, `switchDefaultSpeaker` returns false and
leaves the current default voice id unchanged; a rejected fetch, however,
propagates as a thrown error rather than being recovered as false. -/
theorem switch_local_failures_return_false (env : SwitchEnv)
    (dflt arg : String)
    (h : strTruthy env.speakersAPI = false ∨ env.fetchResult = .ok .notArr) :
    switchDefaultSpeaker env none dflt arg = .ok (false, none, dflt) := by
  unfold switchDefaultSpeaker
  rcases h with h | h
  · simp [h]
  · cases hA : strTruthy env.speakersAPI <;> simp [hA, h]

/-- C5 witness: the amended theorem at a concrete environment with no
configured endpoint. -/
theorem switch_local_failures_witness :
    switchDefaultSpeaker ⟨none, .ok .notArr⟩ none "voice-a" "Maomao" =
      .ok (false, none, "voice-a") :=
  switch_local_failures_return_false ⟨none, .ok .notArr⟩ "voice-a" "Maomao"
    (Or.inl rfl)

/-- C9: whenever a playing-state property command is configured, the
playback state derived on a tick is exactly `{status := "playing"}` or
`{status := "idle"}` with no media type, so the device-self-play
interruption condition can never fire: the tick decision is never
`interrupted deviceSelfPlay`. -/
theorem propertyCommand_no_selfplay (c : Nat × Nat × Nat)
    (propRes : Option Nat) (statusRes : Option RawStatus)
    (newMsg responding : Bool) :
    (derivePlaying (some c) propRes statusRes = ⟨"playing", none⟩ ∨
      derivePlaying (some c) propRes statusRes = ⟨"idle", none⟩) ∧
    monitorDecide newMsg responding (derivePlaying (some c) propRes statusRes) ≠
      .interrupted .deviceSelfPlay := by
  have hp : derivePlaying (some c) propRes statusRes = ⟨"playing", none⟩ ∨
      derivePlaying (some c) propRes statusRes = ⟨"idle", none⟩ := by
    simp only [derivePlaying]
    split
    · exact Or.inl rfl
    · exact Or.inr rfl
  refine ⟨hp, ?_⟩
  rcases hp with hp | hp <;> rw [hp] <;> cases newMsg <;> cases responding <;> decide

/-- C4: the three interruption conditions are evaluated in the fixed
short-circuit order — caller's check, then the cleared `responding` flag,
then device-reported playing with a populated media type.  The caller's
check always wins (first conjunct), a cleared flag wins over the device
condition (second conjunct), the device condition fires when it alone
holds (third conjunct), and whenever the decision interrupts, the monitor
loop returns `"break"` on that very tick after the single poll call
(fourth conjunct). -/
theorem monitor_interrupt_priority :
    (∀ (responding : Bool) (p : Playing),
        monitorDecide true responding p = .interrupted .callerCheck)
    ∧ (∀ p : Playing, monitorDecide false false p = .interrupted .flagCleared)
    ∧ (∀ p : Playing, p.status = "playing" → strTruthy p.media_type = true →
        monitorDecide false true p = .interrupted .deviceSelfPlay)
    ∧ (∀ (cfg : SpeakerCfg) (env : Env) (f : Nat → Bool) (fuel : Nat) (s : St)
        (r : IntrReason),
        env.throwAt = none →
        monitorDecide (f s.tick) (s.responding && !(env.extClear s.tick))
            (derivePlaying cfg.playingCommand (env.propRes s.tick)
              (env.statusRes s.tick)) = .interrupted r →
        ∃ s', monitorLoop cfg env f (fuel + 1) s = .ok (some "break") s' ∧
          s'.trace = s.trace ++ [pollEv cfg]) := by
  refine ⟨fun responding p => rfl, fun p => rfl, ?_, ?_⟩
  · intro p h1 h2
    unfold monitorDecide
    simp [h1, h2]
  · intro cfg env f fuel s r hthrow hdec
    unfold monitorLoop devCall
    simp only [hthrow, reduceCtorEq, if_false, RunOut.bind]
    cases hc : env.extClear s.tick
    · rw [hc] at hdec
      simp only [Bool.not_false, Bool.and_true] at hdec
      simp only [hc, Bool.false_eq_true, if_false]
      rw [hdec]
      exact ⟨_, rfl, rfl⟩
    · rw [hc] at hdec
      simp only [Bool.not_true, Bool.and_false] at hdec
      simp only [hc, if_true]
      rw [hdec]
      exact ⟨_, rfl, rfl⟩

/-- C4 witness: the priority theorem applied at concrete inputs — the
device-self-play condition at a populated media type, and a full monitor
tick whose caller check fires, returning break after a single poll. -/
theorem monitor_interrupt_priority_witness :
    monitorDecide false true ⟨"playing", some "music"⟩ =
      .interrupted .deviceSelfPlay ∧
    ∃ s', monitorLoop ⟨.xiaoai, (5, 1), (5, 3), none, 1000, none, "v"⟩
        ⟨none, none, fun _ => false, fun _ => none,
          fun _ => some ⟨some "idle", none⟩⟩
        (fun _ => true) (2 + 1) ⟨true, [], 0, 0, []⟩ = .ok (some "break") s' ∧
      s'.trace = [] ++ [pollEv ⟨.xiaoai, (5, 1), (5, 3), none, 1000, none, "v"⟩] :=
  ⟨monitor_interrupt_priority.2.2.1 ⟨"playing", some "music"⟩ rfl rfl,
   monitor_interrupt_priority.2.2.2
     ⟨.xiaoai, (5, 1), (5, 3), none, 1000, none, "v"⟩
     ⟨none, none, fun _ => false, fun _ => none, fun _ => some ⟨some "idle", none⟩⟩
     (fun _ => true) 2 ⟨true, [], 0, 0, []⟩ .callerCheck rfl rfl⟩

/-- C3 amended: the `responding` flag is set true at session start and set
false on every *normal* exit of `response` (completion or interruption);
an exit caused by a thrown device I/O error does not clear the flag, since
the source clears it only on the straight-line return path (no
try/finally).  This theorem covers the normal-exit half: whenever the call
returns, the flag is false. -/
theorem responding_cleared_on_return (cfg : SpeakerCfg) (env : Env)
    (opts : RespOptions) (fuel : Nat) :
    RunOut.respondingClearedIfOk (response cfg env opts fuel).result = true := by
  have h : ∀ b : RunOut (Option String),
      RunOut.respondingClearedIfOk
        (match b with
          | .ok r s => RunOut.ok r { s with responding := false }
          | .thrown s => RunOut.thrown s
          | .fuelOut s => RunOut.fuelOut s) = true := by
    intro b
    cases b <;> rfl
  unfold response
  exact h _

/-- C3 counterexample: the claim also demands the flag be cleared on an
exit caused by a thrown device I/O error, but when the very first device
call of a plain native-TTS response rejects, `response` exits by the
thrown error with `responding` still true. -/
theorem responding_stuck_on_throw_cex :
    (let out := response
        ⟨.xiaoai, (5, 1), (5, 3), none, 1000, some "beep.mp3", "voice-a"⟩
        ⟨none, some 0, fun _ => false, fun _ => none,
          fun _ => some ⟨some "idle", none⟩⟩
        { text := some "hi" } 8
     out.result.isThrown = true ∧ out.result.state.responding = true) :=
  ⟨rfl, rfl⟩

/-- C1: the claim says that with a plain-text payload, requested provider
doubao and no configured vendor endpoint, `response` behaves as if the
provider were the native TTS (one native TTS action with the whole text,
no chime, no vendor URL).  In the code the forced fallback only updates a
local variable and never reaches `_response`, which re-reads the original
options: at this failing input the session plays the chime twice, unwakes
the device, and sends the device a vendor URL whose base is the literal
text "undefined" — and never issues a native TTS action carrying "hi".
The code contradicts its own comment ("without the doubao endpoint, only
the built-in xiaoai TTS can be used"), so this is a code bug, witnessed
here by evaluating the model at the failing input. -/
theorem vendor_fallback_not_applied_eval :
    (let out := response
        ⟨.xiaoai, (5, 1), (5, 3), none, 1000, some "beep.mp3",
          "zh_female_maomao_conversation_wvae_bigtts"⟩
        ⟨none, none, fun _ => false, fun _ => none,
          fun _ => some ⟨some "idle", none⟩⟩
        { tts := some .doubao, text := some "hi" } 8
     out.result.state.trace =
        [DevCall.play (some "beep.mp3"), DevCall.pause,
         DevCall.doAction 5 1 (some kAreYouOK),
         DevCall.play (some
           "undefined?speaker=zh_female_maomao_conversation_wvae_bigtts&text=hi"),
         DevCall.getStatus, DevCall.play (some "beep.mp3")] ∧
      out.result.val = some none) :=
  ⟨rfl, rfl⟩

/-- C2: the claim's chime policy says the chime plays only when the
effective provider is not the native TTS (and the vendor endpoint being
unset forces the effective provider to native), and that no other
condition — such as whether a chime media URL is configured — matters.
At this failing input (vendor requested, endpoint unset, chime URL
configured) the effective provider must be native, so no chime should
play; yet the session opens and closes with the chime, because `_response`
still sees the original provider and, in this single-dispatch path, also
gates the chime on the configured chime URL.  Same root bug as the
provider fallback; evaluated at the failing input. -/
theorem chime_policy_violated_eval :
    (let out := response
        ⟨.xiaoai, (5, 1), (5, 3), none, 1000, some "ding.mp3", "voice-b"⟩
        ⟨none, none, fun _ => false, fun _ => none,
          fun _ => some ⟨some "idle", none⟩⟩
        { tts := some .doubao, text := some "yo" } 8
     out.result.state.trace =
        [DevCall.play (some "ding.mp3"), DevCall.pause,
         DevCall.doAction 5 1 (some kAreYouOK),
         DevCall.play (some "undefined?speaker=voice-b&text=yo"),
         DevCall.getStatus, DevCall.play (some "ding.mp3")] ∧
      out.result.val = some none) :=
  ⟨rfl, rfl⟩

/-- C8 counterexample: the claim says a request with no payload (text
normalizing to empty) returns Skipped with no device calls at all.  A
whitespace-only text is truthy in the code, so with a vendor provider and
a configured endpoint it is routed through the streaming path; the
segmenter yields no chunks, the loop reaches no-more, and the requested
keep-alive still issues a device wake-up action — the call returns the
Skipped result (undefined) yet a device call was made. -/
theorem skip_still_calls_device_cex :
    (let out := response
        ⟨.xiaoai, (5, 1), (5, 3), none, 1000, some "beep.mp3", "voice-a"⟩
        ⟨some "http://tts", none, fun _ => false, fun _ => none,
          fun _ => some ⟨some "idle", none⟩⟩
        { tts := some .doubao, text := some "  ", keepAlive := some true } 8
     out.result.state.trace = [DevCall.doAction 5 3 none] ∧
      out.result.val = some none) :=
  ⟨rfl, rfl⟩

/-- Helper: `_response` with no audio payload and text that normalizes to
empty issues no device calls and returns undefined. -/
theorem respInner_no_payload (cfg : SpeakerCfg) (env : Env) (o : RespOptions)
    (fuel : Nat) (s : St)
    (h1 : strTruthy o.audio = false)
    (h2 : strTruthy (o.text.map normalizeText) = false) :
    respInner cfg env o fuel s = .ok none s := by
  simp only [respInner, h1, h2, Bool.false_eq_true, if_false]

/-- C8 amended: a request with no payload — no audio URL, no stream, and
no text that survives normalization — returns the Skipped outcome
(undefined); and it issues no device calls whenever no stream is
synthesized, i.e. when additionally the text is absent/empty or the
effective provider is the native TTS.  (A truthy whitespace-only text
with an available vendor provider is routed through the streaming path
instead and may still issue a wake-up call, as the counterexample
shows.) -/
theorem no_payload_skips (cfg : SpeakerCfg) (env : Env) (opts : RespOptions)
    (fuel : Nat)
    (hA : strTruthy opts.audio = false) (hS : opts.stream = none)
    (hT : strTruthy (opts.text.map normalizeText) = false)
    (hN : strTruthy opts.text = false ∨
      (if strTruthy env.doubaoTTS then opts.tts.getD cfg.tts else TTS.xiaoai) =
        TTS.xiaoai) :
    (response cfg env opts fuel).result = .ok none ⟨false, [], 0, 0, []⟩ := by
  unfold response
  cases hm : opts.hasNewMsg with
  | none =>
    simp only [hm, Option.isNone_none, if_true]
    rcases hN with hN | hN
    · simp only [hS, hA, hN, Option.isSome_none, Bool.false_or, Bool.false_and,
        Bool.and_false, Bool.and_true, Bool.not_false, Bool.false_eq_true, if_false]
      rw [respInner_no_payload cfg env
        { opts with hasNewMsg := some defaultHasNewMsg, stream := none } fuel _ hA hT]
    · have hb : (TTS.xiaoai != TTS.xiaoai) = false := rfl
      simp only [hS, hA, hN, hb, Bool.and_false, Bool.false_and, Bool.false_eq_true,
        if_false]
      rw [respInner_no_payload cfg env
        { opts with hasNewMsg := some defaultHasNewMsg, stream := none } fuel _ hA hT]
  | some g =>
    simp only [hm, Option.isNone_some, Bool.false_eq_true, if_false]
    rcases hN with hN | hN
    · simp only [hS, hA, hN, Option.isSome_none, Bool.false_or, Bool.false_and,
        Bool.and_false, Bool.and_true, Bool.not_false, Bool.false_eq_true, if_false]
      rw [respInner_no_payload cfg env _ fuel _ hA hT]
    · have hb : (TTS.xiaoai != TTS.xiaoai) = false := rfl
      simp only [hS, hA, hN, hb, Bool.and_false, Bool.false_and, Bool.false_eq_true,
        if_false]
      rw [respInner_no_payload cfg env _ fuel _ hA hT]

/-- C8 witness: the amended theorem at a concrete empty request. -/
theorem no_payload_skips_witness :
    (response ⟨.xiaoai, (5, 1), (5, 3), none, 1000, none, "v"⟩
        ⟨none, none, fun _ => false, fun _ => none, fun _ => none⟩
        {} 3).result = .ok none ⟨false, [], 0, 0, []⟩ :=
  no_payload_skips _ _ {} 3 rfl rfl rfl (Or.inl rfl)

/-! ### Helper lemmas for the streaming-order claim -/

theorem RunOut.bind_disp {α β : Type} {s0 : St} {x : RunOut α} {f : α → St → RunOut β}
    (hx : x.state.dispatched = s0.dispatched)
    (hf : ∀ a s, s.dispatched = s0.dispatched →
      (f a s).state.dispatched = s0.dispatched) :
    (x.bind f).state.dispatched = s0.dispatched := by
  cases x with
  | ok a s => exact hf a s hx
  | thrown s => exact hx
  | fuelOut s => exact hx

theorem devCall_disp (env : Env) (c : DevCall) (s : St) :
    (devCall env c s).state.dispatched = s.dispatched := by
  unfold devCall
  dsimp only
  split <;> rfl

theorem unWake_disp (cfg : SpeakerCfg) (env : Env) (s : St) :
    (unWake cfg env s).state.dispatched = s.dispatched := by
  unfold unWake
  refine RunOut.bind_disp (devCall_disp env .pause s) ?_
  intro a s1 h1
  exact (devCall_disp env _ s1).trans h1

theorem monitorLoop_disp (cfg : SpeakerCfg) (env : Env) (f : Nat → Bool) :
    ∀ (fuel : Nat) (s : St),
      (monitorLoop cfg env f fuel s).state.dispatched = s.dispatched := by
  intro fuel
  induction fuel with
  | zero => intro s; rfl
  | succ n ih =>
    intro s
    unfold monitorLoop
    refine RunOut.bind_disp (devCall_disp env _ s) ?_
    intro a s1 h1
    cases hc : env.extClear s1.tick <;> simp only [hc, Bool.false_eq_true, if_false, if_true]
    · split
      · exact h1
      · exact h1
      · exact (ih _).trans h1
    · split
      · exact h1
      · exact h1
      · exact (ih _).trans h1

theorem playCall_disp (cfg : SpeakerCfg) (env : Env)
    (pS tNX kA : Bool) (f : Nat → Bool) (args : PlayArgs) (fuel : Nat) (s : St) :
    (playCall cfg env pS tNX kA f args fuel s).state.dispatched = s.dispatched := by
  unfold playCall
  refine RunOut.bind_disp ?_ ?_
  · split
    · exact devCall_disp ..
    · rfl
  intro _ s1 h1
  refine RunOut.bind_disp ?_ ?_
  · split
    · exact (unWake_disp ..).trans h1
    · exact h1
  intro _ s2 h2
  refine RunOut.bind_disp ?_ ?_
  · split
    · exact (devCall_disp ..).trans h2
    · exact (devCall_disp ..).trans h2
  intro _ s3 h3
  refine RunOut.bind_disp ((monitorLoop_disp ..).trans h3) ?_
  intro r s4 h4
  split
  · exact h4
  refine RunOut.bind_disp ?_ ?_
  · split
    · exact (devCall_disp ..).trans h4
    · exact h4
  intro _ s5 h5
  refine RunOut.bind_disp ?_ ?_
  · split
    · exact (devCall_disp ..).trans h5
    · exact h5
  intro _ s6 h6
  exact h6

theorem respInner_disp (cfg : SpeakerCfg) (env : Env) (o : RespOptions)
    (fuel : Nat) (s : St) :
    (respInner cfg env o fuel s).state.dispatched = s.dispatched := by
  unfold respInner
  dsimp only
  split
  · exact playCall_disp ..
  split
  · split <;> exact playCall_disp ..
  · rfl

theorem chunkPrelude_disp (cfg : SpeakerCfg) (env : Env) (pS tNX : Bool)
    (acc : String) (s : St) :
    (chunkPrelude cfg env pS tNX acc s).state.dispatched = s.dispatched := by
  unfold chunkPrelude
  split
  · refine RunOut.bind_disp ?_ ?_
    · split
      · exact devCall_disp ..
      · rfl
    intro _ s1 h1
    split
    · exact (unWake_disp ..).trans h1
    · exact h1
  · rfl

theorem closingCalls_disp (cfg : SpeakerCfg) (env : Env) (pS kA : Bool)
    (acc : String) (s : St) :
    (closingCalls cfg env pS kA acc s).state.dispatched = s.dispatched := by
  unfold closingCalls
  refine RunOut.bind_disp ?_ ?_
  · split
    · split
      · exact devCall_disp ..
      · rfl
    · rfl
  intro _ s1 h1
  split
  · exact (devCall_disp ..).trans h1
  · exact h1

theorem potentialChunks_cancelled (cur : StreamResponse)
    (h : cur.cancelled = true) : potentialChunks cur = [] := by
  unfold potentialChunks
  rw [h]
  rfl

theorem potentialChunks_cons (o : Option String) (nm : Bool)
    (rest : List (Option String × Bool)) :
    potentialChunks ⟨(o, nm) :: rest, false⟩ =
      (match o with
        | some t => if t = "" then [] else [t]
        | none => []) ++ potentialChunks ⟨rest, false⟩ := by
  cases o with
  | none => simp [potentialChunks, List.filterMap_cons]
  | some t =>
    by_cases ht : t = "" <;> simp [potentialChunks, List.filterMap_cons, ht]

theorem chunkOf_falsy (o : Option String) (h : strTruthy o = false) :
    (match o with
      | some t => if t = "" then [] else [t]
      | none => ([] : List String)) = [] := by
  cases o with
  | none => rfl
  | some t =>
    simp only [strTruthy, bne_eq_false_iff_eq] at h
    simp [h]

theorem streamLoop_dispatch_order (cfg : SpeakerCfg) (env : Env)
    (opts : RespOptions) (pS tNX kA : Bool) (mf : Nat) :
    ∀ (fuel : Nat) (cur : StreamResponse) (acc : String) (res : Option String)
      (s : St),
      ∃ n : Nat,
        (streamLoop cfg env opts pS tNX kA mf fuel cur acc res s).state.dispatched
          = s.dispatched ++ (potentialChunks cur).take n := by
  intro fuel
  induction fuel with
  | zero =>
    intro cur acc res s
    exact ⟨0, by simp [streamLoop, RunOut.state]⟩
  | succ fn ih =>
    intro cur acc res s
    obtain ⟨sched, cancelled⟩ := cur
    cases cancelled with
    | true =>
      refine ⟨0, ?_⟩
      unfold streamLoop
      simp only [getNextResponse, if_true, List.take_zero, List.append_nil]
      exact RunOut.bind_disp (closingCalls_disp ..) (fun _ s1 h1 => h1)
    | false =>
      cases sched with
      | nil =>
        refine ⟨0, ?_⟩
        unfold streamLoop
        simp only [getNextResponse, Bool.false_eq_true, if_false,
          List.take_zero, List.append_nil]
        exact RunOut.bind_disp (closingCalls_disp ..) (fun _ s1 h1 => h1)
      | cons hd tl =>
        obtain ⟨o, nm⟩ := hd
        unfold streamLoop
        simp only [getNextResponse, Bool.false_eq_true, if_false]
        rw [potentialChunks_cons]
        by_cases ho : strTruthy o = true
        · obtain ⟨t, rfl⟩ : ∃ t, o = some t := by
            cases o with
            | none => simp [strTruthy] at ho
            | some t => exact ⟨t, rfl⟩
          have ht : t ≠ "" := by
            simpa only [strTruthy, bne_iff_ne, ne_eq] using ho
          rw [if_pos ho]
          dsimp only
          rw [if_neg ht, Option.getD_some]
          cases hP : chunkPrelude cfg env pS tNX acc s with
          | thrown s1 =>
            refine ⟨0, ?_⟩
            have h1 : s1.dispatched = s.dispatched := by
              have hh := chunkPrelude_disp cfg env pS tNX acc s
              rw [hP] at hh; exact hh
            simp [RunOut.bind, RunOut.state, h1]
          | fuelOut s1 =>
            refine ⟨0, ?_⟩
            have h1 : s1.dispatched = s.dispatched := by
              have hh := chunkPrelude_disp cfg env pS tNX acc s
              rw [hP] at hh; exact hh
            simp [RunOut.bind, RunOut.state, h1]
          | ok u s1 =>
            have h1 : s1.dispatched = s.dispatched := by
              have hh := chunkPrelude_disp cfg env pS tNX acc s
              rw [hP] at hh; exact hh
            simp only [RunOut.bind]
            cases hR : respInner cfg env (chunkOpts opts t) mf
                (s1.pushDispatched t) with
            | thrown s3 =>
              refine ⟨1, ?_⟩
              have h3 := respInner_disp cfg env (chunkOpts opts t) mf
                (s1.pushDispatched t)
              rw [hR] at h3
              simp only [RunOut.state, St.pushDispatched] at h3 ⊢
              simp [h3, h1]
            | fuelOut s3 =>
              refine ⟨1, ?_⟩
              have h3 := respInner_disp cfg env (chunkOpts opts t) mf
                (s1.pushDispatched t)
              rw [hR] at h3
              simp only [RunOut.state, St.pushDispatched] at h3 ⊢
              simp [h3, h1]
            | ok r s3 =>
              have h3 : s3.dispatched = s.dispatched ++ [t] := by
                have hh := respInner_disp cfg env (chunkOpts opts t) mf
                  (s1.pushDispatched t)
                rw [hR] at hh
                simpa [St.pushDispatched, h1] using hh
              simp only [RunOut.bind]
              by_cases hbr : r = some "break"
              · refine ⟨1, ?_⟩
                rw [if_pos hbr]
                simp [RunOut.state, h3]
              · rw [if_neg hbr]
                cases nm with
                | true =>
                  refine ⟨1, ?_⟩
                  simp only [if_true]
                  cases hC : closingCalls cfg env pS kA (acc ++ t) s3 with
                  | ok a s4 =>
                    have h4 : s4.dispatched = s3.dispatched := by
                      have hh := closingCalls_disp cfg env pS kA (acc ++ t) s3
                      rw [hC] at hh; exact hh
                    simp [RunOut.state, h4, h3]
                  | thrown s4 =>
                    have h4 : s4.dispatched = s3.dispatched := by
                      have hh := closingCalls_disp cfg env pS kA (acc ++ t) s3
                      rw [hC] at hh; exact hh
                    simp [RunOut.state, h4, h3]
                  | fuelOut s4 =>
                    have h4 : s4.dispatched = s3.dispatched := by
                      have hh := closingCalls_disp cfg env pS kA (acc ++ t) s3
                      rw [hC] at hh; exact hh
                    simp [RunOut.state, h4, h3]
                | false =>
                  simp only [Bool.false_eq_true, if_false]
                  obtain ⟨n2, hih⟩ := ih ⟨tl, false⟩ (acc ++ t) r s3
                  refine ⟨n2 + 1, ?_⟩
                  rw [hih, h3]
                  simp
        · have ho2 : strTruthy o = false := by
            cases h : strTruthy o
            · rfl
            · exact absurd h ho
          rw [if_neg ho]
          rw [chunkOf_falsy o ho2, List.nil_append]
          cases nm with
          | true =>
            refine ⟨0, ?_⟩
            simp only [if_true, List.take_zero, List.append_nil]
            exact RunOut.bind_disp (closingCalls_disp ..) (fun _ s1 h1 => h1)
          | false =>
            simp only [Bool.false_eq_true, if_false]
            exact ih ⟨tl, false⟩ acc res s

theorem streamLoop_cancelled_no_dispatch (cfg : SpeakerCfg) (env : Env)
    (opts : RespOptions) (pS tNX kA : Bool) (mf : Nat)
    (fuel : Nat) (cur : StreamResponse) (acc : String) (res : Option String)
    (s : St) (hc : cur.cancelled = true) :
    (streamLoop cfg env opts pS tNX kA mf fuel cur acc res s).state.dispatched
      = s.dispatched := by
  cases fuel with
  | zero => rfl
  | succ n =>
    unfold streamLoop
    simp only [getNextResponse, hc, if_true]
    exact RunOut.bind_disp (closingCalls_disp ..) (fun _ s1 h1 => h1)

theorem streamLoop_break_cancels (cfg : SpeakerCfg) (env : Env)
    (opts : RespOptions) (pS tNX kA : Bool) (mf : Nat) :
    ∀ (fuel : Nat) (cur : StreamResponse) (acc : String) (res : Option String)
      (s : St) (r : Option String) (cur' : StreamResponse) (s' : St),
      res ≠ some "break" →
      streamLoop cfg env opts pS tNX kA mf fuel cur acc res s = .ok (r, cur') s' →
      r = some "break" → cur'.cancelled = true := by
  intro fuel
  induction fuel with
  | zero =>
    intro cur acc res s r cur' s' hres heq hbr
    exact absurd heq (by simp [streamLoop])
  | succ fn ih =>
    intro cur acc res s r cur' s' hres heq hbr
    obtain ⟨sched, cancelled⟩ := cur
    cases cancelled with
    | true =>
      unfold streamLoop at heq
      simp only [getNextResponse, if_true, strTruthy, Bool.false_eq_true,
        if_false] at heq
      cases hC : closingCalls cfg env pS kA acc s with
      | ok a s4 =>
        rw [hC] at heq
        simp only [RunOut.bind] at heq
        cases heq
        rfl
      | thrown s4 =>
        rw [hC] at heq
        simp only [RunOut.bind, reduceCtorEq] at heq
      | fuelOut s4 =>
        rw [hC] at heq
        simp only [RunOut.bind, reduceCtorEq] at heq
    | false =>
      cases sched with
      | nil =>
        unfold streamLoop at heq
        simp only [getNextResponse, strTruthy, Bool.false_eq_true, if_false,
          if_true] at heq
        cases hC : closingCalls cfg env pS kA acc s with
        | ok a s4 =>
          rw [hC] at heq
          simp only [RunOut.bind] at heq
          cases heq
          exact absurd hbr hres
        | thrown s4 =>
          rw [hC] at heq
          simp only [RunOut.bind, reduceCtorEq] at heq
        | fuelOut s4 =>
          rw [hC] at heq
          simp only [RunOut.bind, reduceCtorEq] at heq
      | cons hd tl =>
        obtain ⟨o, nm⟩ := hd
        unfold streamLoop at heq
        simp only [getNextResponse, Bool.false_eq_true, if_false] at heq
        by_cases ho : strTruthy o = true
        · obtain ⟨t, rfl⟩ : ∃ t, o = some t := by
            cases o with
            | none => simp [strTruthy] at ho
            | some t => exact ⟨t, rfl⟩
          rw [if_pos ho] at heq
          simp only [Option.getD_some] at heq
          cases hP : chunkPrelude cfg env pS tNX acc s with
          | thrown s1 =>
            rw [hP] at heq
            simp only [RunOut.bind, reduceCtorEq] at heq
          | fuelOut s1 =>
            rw [hP] at heq
            simp only [RunOut.bind, reduceCtorEq] at heq
          | ok u s1 =>
            rw [hP] at heq
            simp only [RunOut.bind] at heq
            cases hR : respInner cfg env (chunkOpts opts t) mf
                (s1.pushDispatched t) with
            | thrown s3 =>
              rw [hR] at heq
              simp only [RunOut.bind, reduceCtorEq] at heq
            | fuelOut s3 =>
              rw [hR] at heq
              simp only [RunOut.bind, reduceCtorEq] at heq
            | ok r0 s3 =>
              rw [hR] at heq
              simp only [RunOut.bind] at heq
              by_cases hbr0 : r0 = some "break"
              · rw [if_pos hbr0] at heq
                cases heq
                rfl
              · rw [if_neg hbr0] at heq
                cases nm with
                | true =>
                  simp only [if_true] at heq
                  cases hC : closingCalls cfg env pS kA (acc ++ t) s3 with
                  | ok a s4 =>
                    rw [hC] at heq
                    simp only [RunOut.bind] at heq
                    cases heq
                    exact absurd hbr hbr0
                  | thrown s4 =>
                    rw [hC] at heq
                    simp only [RunOut.bind, reduceCtorEq] at heq
                  | fuelOut s4 =>
                    rw [hC] at heq
                    simp only [RunOut.bind, reduceCtorEq] at heq
                | false =>
                  simp only [Bool.false_eq_true, if_false] at heq
                  exact ih ⟨tl, false⟩ (acc ++ t) r0 s3 r cur' s' hbr0 heq hbr
        · rw [if_neg ho] at heq
          cases nm with
          | true =>
            simp only [if_true] at heq
            cases hC : closingCalls cfg env pS kA acc s with
            | ok a s4 =>
              rw [hC] at heq
              simp only [RunOut.bind] at heq
              cases heq
              exact absurd hbr hres
            | thrown s4 =>
              rw [hC] at heq
              simp only [RunOut.bind, reduceCtorEq] at heq
            | fuelOut s4 =>
              rw [hC] at heq
              simp only [RunOut.bind, reduceCtorEq] at heq
          | false =>
            simp only [Bool.false_eq_true, if_false] at heq
            exact ih ⟨tl, false⟩ acc res s r cur' s' hres heq hbr

/-- C7: for every streaming session, chunks are dispatched strictly in the
cursor's order — the ghost list of dispatched chunks always equals a
prefix (`take n`) of the chunks the cursor can yield, in order, with no
skips or reorderings (first conjunct); once a chunk's dispatch resolves
Interrupted ("break"), the returned cursor is the cancelled one and the
loop has returned, so no further chunk is ever dispatched in that session
(second conjunct); and a cancelled cursor never yields another dispatch
even if the loop were re-entered (third conjunct).  At most one dispatch
is in flight at a time by construction of the embedding: the loop is
sequential, and the recursive call — hence chunk N+1's dispatch — occurs
only after chunk N's `_response` (including its playback monitor) has
resolved to a value. -/
theorem stream_chunks_sequential :
    (∀ (cfg : SpeakerCfg) (env : Env) (opts : RespOptions) (pS tNX kA : Bool)
      (mf fuel : Nat) (cur : StreamResponse) (acc : String)
      (res : Option String) (s : St),
      ∃ n : Nat,
        (streamLoop cfg env opts pS tNX kA mf fuel cur acc res s).state.dispatched
          = s.dispatched ++ (potentialChunks cur).take n)
    ∧ (∀ (cfg : SpeakerCfg) (env : Env) (opts : RespOptions) (pS tNX kA : Bool)
      (mf fuel : Nat) (cur : StreamResponse) (acc : String)
      (res : Option String) (s : St) (r : Option String)
      (cur' : StreamResponse) (s' : St),
      res ≠ some "break" →
      streamLoop cfg env opts pS tNX kA mf fuel cur acc res s = .ok (r, cur') s' →
      r = some "break" → cur'.cancelled = true)
    ∧ (∀ (cfg : SpeakerCfg) (env : Env) (opts : RespOptions) (pS tNX kA : Bool)
      (mf fuel : Nat) (cur : StreamResponse) (acc : String)
      (res : Option String) (s : St),
      cur.cancelled = true →
      (streamLoop cfg env opts pS tNX kA mf fuel cur acc res s).state.dispatched
        = s.dispatched) :=
  ⟨fun cfg env opts pS tNX kA mf fuel cur acc res s =>
      streamLoop_dispatch_order cfg env opts pS tNX kA mf fuel cur acc res s,
   fun cfg env opts pS tNX kA mf fuel cur acc res s r cur' s' =>
      streamLoop_break_cancels cfg env opts pS tNX kA mf fuel cur acc res s r cur' s',
   fun cfg env opts pS tNX kA mf fuel cur acc res s hc =>
      streamLoop_cancelled_no_dispatch cfg env opts pS tNX kA mf fuel cur acc res s hc⟩

/-- C7 witness: the sequencing theorem applied to a concrete two-chunk
session whose first dispatch is interrupted by the caller's check — the
dispatched ghost list is a prefix of the cursor's chunks, the returned
cursor is cancelled, and a cancelled cursor dispatches nothing. -/
theorem stream_chunks_sequential_witness :
    (∃ n : Nat,
      (streamLoop ⟨.xiaoai, (5, 1), (5, 3), none, 1000, none, "v"⟩
          ⟨none, none, fun _ => false, fun _ => none,
            fun _ => some ⟨some "idle", none⟩⟩
          { hasNewMsg := some (fun _ => true) } false false false 3 5
          ⟨[(some "a", false), (some "b", true)], false⟩ "" none
          ⟨true, [], 0, 0, []⟩).state.dispatched
        = [] ++ (potentialChunks
            ⟨[(some "a", false), (some "b", true)], false⟩).take n)
    ∧ (⟨[(some "b", true)], true⟩ : StreamResponse).cancelled = true
    ∧ (streamLoop ⟨.xiaoai, (5, 1), (5, 3), none, 1000, none, "v"⟩
          ⟨none, none, fun _ => false, fun _ => none,
            fun _ => some ⟨some "idle", none⟩⟩
          { hasNewMsg := some (fun _ => true) } false false false 3 2
          ⟨[(some "z", false)], true⟩ "" none
          ⟨true, [], 0, 0, []⟩).state.dispatched = [] :=
  ⟨stream_chunks_sequential.1 _ _ _ false false false 3 5 _ "" none _,
   stream_chunks_sequential.2.1 ⟨.xiaoai, (5, 1), (5, 3), none, 1000, none, "v"⟩
     ⟨none, none, fun _ => false, fun _ => none, fun _ => some ⟨some "idle", none⟩⟩
     { hasNewMsg := some (fun _ => true) } false false false 3 5
     ⟨[(some "a", false), (some "b", true)], false⟩ "" none ⟨true, [], 0, 0, []⟩
     (some "break") ⟨[(some "b", true)], true⟩
     ⟨true, [DevCall.doAction 5 1 (some "a"), DevCall.getStatus], 2, 1, ["a"]⟩
     (by decide) rfl rfl,
   stream_chunks_sequential.2.2 ⟨.xiaoai, (5, 1), (5, 3), none, 1000, none, "v"⟩
     ⟨none, none, fun _ => false, fun _ => none, fun _ => some ⟨some "idle", none⟩⟩
     { hasNewMsg := some (fun _ => true) } false false false 3 2
     ⟨[(some "z", false)], true⟩ "" none ⟨true, [], 0, 0, []⟩ rfl⟩
